import Mathlib

/-!
Verification development for `eks-version-manager` (`src/eks_versions.py`).

The program's decision core is:
* `compare_versions` — three-way comparison of version strings via the
  `packaging.version` PEP 440 parser, returning `0` when either string
  fails to parse (`InvalidVersion` is caught);
* `check_version_filters` — the admission predicate combining the
  `exact` / `min` / `max` / `outdated` filter clauses;
* `get_all_eks_info` — the region/cluster aggregation loop with
  per-resource error isolation.

We embed these shallowly.  External collaborators (AWS API calls,
`kubectl` invocations) become fields of an environment record; a failing
call (`ClientError`, `CalledProcessError`) is modelled as `none`.
-/

namespace EksVersions

/-! ## Version parsing

`compare_versions` calls the external `packaging.version.parse`.  We model
that parser on the spec's `Version` data model (a dotted sequence of
non-negative integer components): a string of the form `N(.N)*` with each
`N` a non-empty digit string parses to its list of components; every other
string is `InvalidVersion`, modelled as `none`.  This covers every version
shape the program's spec and tests exercise; kubelet strings such as
`"v1.27.1-eks-abc123"` fail to parse both here and in `packaging`. -/

/-- Split a character list on the dot separator. `"1.27"` ↦ `[[1],[2,7]]`
  (as character lists); adjacent/leading/trailing dots yield empty parts. -/
def splitDots : List Char → List (List Char)
  | [] => [[]]
  | c :: cs =>
    if c = '.' then [] :: splitDots cs
    else
      match splitDots cs with
      | [] => [[c]]
      | p :: ps => (c :: p) :: ps

/-- Parse one dotted component: a non-empty all-digit string, as a `Nat`. -/
def parseComponent (s : List Char) : Option Nat :=
  if s = [] then none
  else if s.all (fun c => c.isDigit) then
    some (s.foldl (fun n c => n * 10 + (c.toNat - 48)) 0)
  else none

/-- Parse every dotted component, failing if any fails. -/
def parseRelease : List (List Char) → Option (List Nat)
  | [] => some []
  | p :: ps =>
    match parseComponent p, parseRelease ps with
    | some n, some ns => some (n :: ns)
    | _, _ => none

/-- Model of `packaging.version.parse` on the spec's `Version` data model:
  the release component list if the string is well-formed, `none` for
  `InvalidVersion`. -/
def version_parse (s : String) : Option (List Nat) :=
  parseRelease (splitDots s.data)

/-- Strip trailing zero components, as `packaging`'s comparison key does
  (`reversed(dropwhile(== 0, reversed(release)))`), here by recursion. -/
def stripTZ : List Nat → List Nat
  | [] => []
  | x :: xs =>
    match stripTZ xs with
    | [] => if x = 0 then [] else [x]
    | y :: ys => x :: y :: ys

/-- Python tuple comparison on component lists: lexicographic, a strict
  prefix ordering before the longer tuple.  Returns `-1`, `0` or `1`. -/
def listCmp : List Nat → List Nat → Int
  | [], [] => 0
  | [], _ :: _ => -1
  | _ :: _, [] => 1
  | x :: xs, y :: ys =>
    if x < y then -1 else if y < x then 1 else listCmp xs ys

/-- `packaging`'s ordering of two parsed releases: compare the
  trailing-zero-stripped component tuples.  `(ver1 > ver2) - (ver1 < ver2)`
  in the source is exactly the sign this returns. -/
def releaseCmp (a b : List Nat) : Int :=
  listCmp (stripTZ a) (stripTZ b)

/-- `compare_versions` (src/eks_versions.py:13-20): parse both strings and
  return the three-way comparison; return `0` when either raises
  `InvalidVersion`. -/
def compare_versions (v1 v2 : String) : Int :=
  match version_parse v1, version_parse v2 with
  | some r1, some r2 => releaseCmp r1 r2
  | _, _ => 0

/-- The component-wise ordinal comparator: compare position by position,
  a missing component counting as `0` (zero extension).  A list compared
  against `[]` is therefore equal when all its components are zero, and
  decides the comparison by its first non-zero component otherwise. -/
def cmpPad : List Nat → List Nat → Int
  | [], [] => 0
  | [], y :: ys => if (y :: ys).all (fun n => n == 0) then 0 else -1
  | x :: xs, [] => if (x :: xs).all (fun n => n == 0) then 0 else 1
  | x :: xs, y :: ys =>
    if x < y then -1 else if y < x then 1 else cmpPad xs ys

/-! ## The version filter -/

/-- The `version_filters` dict.  `main` (src/eks_versions.py:269-277) puts a
  key in the dict only when the corresponding CLI flag was given a truthy
  value, so an `Option` field models presence of the key. -/
structure VersionFilters where
  exact : Option String
  min : Option String
  max : Option String
  outdated : Bool
deriving DecidableEq

/-- Python truthiness of `version_filters.get(key)` for a string-valued
  key: present and non-empty. -/
def truthy : Option String → Bool
  | none => false
  | some s => s != ""

/-- Python truthiness of the whole dict (`if not version_filters`): the
  dict is empty.  (A dict holding only falsy values is non-empty in
  Python, but every clause then skips and the result is `True` either
  way, which the proofs below confirm branch by branch.) -/
def VersionFilters.isEmptyDict (f : VersionFilters) : Bool :=
  f.exact.isNone && f.min.isNone && f.max.isNone && !f.outdated

/-- The body of the `outdated` clause, the version-skew detector
  (src/eks_versions.py:80-86).  `node_versions` is the Python set
  materialised as a duplicate-free list; `list(node_versions)[0]` is its
  head. -/
def outdated_check (control_plane_version : String)
    (node_versions : List String) : Bool :=
  if node_versions.length > 1 then true
  else
    match node_versions with
    | [] => false
    | s :: _ => compare_versions s control_plane_version != 0

/-- `check_version_filters` (src/eks_versions.py:63-88), clause for
  clause: empty filter admits; a set `exact` key rejects on textual
  mismatch; a set `min` (`max`) key rejects when the control-plane version
  compares below (above) it; a set `outdated` key ends the function with
  the skew detector's verdict; otherwise admit. -/
def check_version_filters (control_plane_version : String)
    (node_versions : List String) (version_filters : VersionFilters) : Bool :=
  if version_filters.isEmptyDict then true
  else if truthy version_filters.exact
      && (control_plane_version != version_filters.exact.getD "") then false
  else if truthy version_filters.min
      && decide (compare_versions control_plane_version (version_filters.min.getD "") < 0) then false
  else if truthy version_filters.max
      && decide (compare_versions control_plane_version (version_filters.max.getD "") > 0) then false
  else if version_filters.outdated then
    outdated_check control_plane_version node_versions
  else true

/-! ## Aggregation (`get_all_eks_info`)

The AWS and `kubectl` collaborators become fields of an environment
record.  A call that raises a caught exception (`ClientError` for the AWS
calls, `CalledProcessError` for the `kubectl` subprocesses) is modelled as
`none`; the diagnostic text only reaches `stderr` and is dropped. -/

/-- The fields of a `describe_cluster` response the program reads. -/
structure EKSCluster where
  version : String
  status : String
  platformVersion : Option String
  endpoint : String
  tags : List (String × String)
deriving DecidableEq

/-- The fields of a `kubectl get nodes` item the program reads.
  `conditionTypes` lists the `type` of each entry of
  `status.conditions` in order. -/
structure EKSNode where
  name : String
  conditionTypes : List String
  labels : List (String × String)
  kubeletVersion : String
  capacity : List (String × String)
deriving DecidableEq

/-- The fields of a `kubectl get pods` item the program reads. -/
structure PodItem where
  name : String
  ns : String
  schedulerName : Option String
  phase : String
  labels : List (String × String)
deriving DecidableEq

/-- The fields of a `describe_nodegroup` response the program reads. -/
structure EKSNodegroup where
  status : String
  instanceTypes : List String
  amiVersion : Option String
  version : Option String
  desiredSize : Nat
  maxSize : Nat
  minSize : Nat
  tags : List (String × String)
deriving DecidableEq

/-- The external collaborators of `get_all_eks_info`.  `list_clusters`
  takes the region; `describe_cluster` the region and cluster name;
  the `kubectl` calls the cluster name and region (in the source's
  argument order); the nodegroup calls the region, cluster and, for
  describe, the nodegroup name. -/
structure AWSEnv where
  describe_regions : Option (List String)
  list_clusters : String → Option (List String)
  describe_cluster : String → String → Option EKSCluster
  kubectl_get_nodes : String → String → Option (List EKSNode)
  kubectl_get_pods : String → String → Option (List PodItem)
  list_nodegroups : String → String → Option (List String)
  describe_nodegroup : String → String → String → Option EKSNodegroup

/-- `get_cluster_nodes` (src/eks_versions.py:41-61): the `kubectl get
  nodes` items, `[]` when the subprocess fails. -/
def get_cluster_nodes (env : AWSEnv) (cluster_name region : String) : List EKSNode :=
  (env.kubectl_get_nodes cluster_name region).getD []

/-- `get_fargate_pods` (src/eks_versions.py:22-39): the `kubectl get pods`
  items whose `schedulerName` is `fargate-scheduler`, `[]` when the
  subprocess fails. -/
def get_fargate_pods (env : AWSEnv) (cluster_name region : String) : List PodItem :=
  match env.kubectl_get_pods cluster_name region with
  | none => []
  | some pods => pods.filter (fun pod => pod.schedulerName == some "fargate-scheduler")

/-- The `control_plane` record of `cluster_info`
  (src/eks_versions.py:133-138). -/
structure ControlPlaneInfo where
  version : String
  status : String
  platform_version : String
  endpoint : String
deriving DecidableEq

/-- A `node_info` record (src/eks_versions.py:150-158). -/
structure NodeInfo where
  name : String
  status : String
  instance_type : String
  k8s_version : String
  capacity : List (String × String)
  labels : List (String × String)
deriving DecidableEq

/-- A `pod_info` record (src/eks_versions.py:162-168). -/
structure PodInfo where
  name : String
  ns : String
  status : String
  labels : List (String × String)
deriving DecidableEq

/-- A `nodegroup_info` record (src/eks_versions.py:183-195). -/
structure NodegroupInfo where
  name : String
  status : String
  instance_types : List String
  ami_version : String
  k8s_version : String
  desired : Nat
  max : Nat
  min : Nat
  tags : List (String × String)
deriving DecidableEq

/-- The `compute` record of `cluster_info` (src/eks_versions.py:140-146). -/
structure ComputeInfo where
  managed_nodegroups : List NodegroupInfo
  nodes : List NodeInfo
  fargate_pods : List PodInfo
deriving DecidableEq

/-- A `cluster_info` record (src/eks_versions.py:131-147). -/
structure ClusterInfo where
  name : String
  control_plane : ControlPlaneInfo
  tags : List (String × String)
  compute : ComputeInfo
deriving DecidableEq

/-- Build one `node_info` entry (src/eks_versions.py:150-158).  The source
  indexes `conditions[-1]`; we take the last condition type, defaulting to
  `""` on the empty list the source would crash on (no claim reaches it). -/
def node_info (node : EKSNode) : NodeInfo :=
  { name := node.name
    status := node.conditionTypes.getLastD ""
    instance_type := (List.lookup "node.kubernetes.io/instance-type" node.labels).getD "N/A"
    k8s_version := node.kubeletVersion
    capacity := node.capacity
    labels := node.labels }

/-- Build one `pod_info` entry (src/eks_versions.py:162-168). -/
def pod_info (pod : PodItem) : PodInfo :=
  { name := pod.name
    ns := pod.ns
    status := pod.phase
    labels := pod.labels }

/-- Build one `nodegroup_info` entry (src/eks_versions.py:183-195). -/
def nodegroup_info (ng_name : String) (ng : EKSNodegroup) : NodegroupInfo :=
  { name := ng_name
    status := ng.status
    instance_types := ng.instanceTypes
    ami_version := ng.amiVersion.getD "N/A"
    k8s_version := ng.version.getD "N/A"
    desired := ng.desiredSize
    max := ng.maxSize
    min := ng.minSize
    tags := ng.tags }

/-- The managed-nodegroup loop (src/eks_versions.py:172-204): list the
  nodegroup names, describe each, append the successes in order; a
  failing describe is logged and skipped, a failing list yields `[]`. -/
def process_nodegroups (env : AWSEnv) (region cluster_name : String) : List NodegroupInfo :=
  match env.list_nodegroups region cluster_name with
  | none => []
  | some nodegroups =>
    nodegroups.filterMap fun ng_name =>
      (env.describe_nodegroup region cluster_name ng_name).map (nodegroup_info ng_name)

/-- One iteration of the cluster loop (src/eks_versions.py:115-210):
  describe the cluster (`none` on `ClientError`), collect the node
  kubelet-version set, consult the filter (`none` when it rejects), and
  otherwise assemble the `cluster_info` record.  The `Set` built by the
  comprehension on line 122 is materialised as the deduplicated list of
  kubelet versions. -/
def process_cluster (env : AWSEnv) (version_filters : VersionFilters)
    (region cluster_name : String) : Option ClusterInfo :=
  match env.describe_cluster region cluster_name with
  | none => none
  | some cluster =>
    let control_plane_version := cluster.version
    let k8s_nodes := get_cluster_nodes env cluster_name region
    let node_versions := (k8s_nodes.map (fun node => node.kubeletVersion)).dedup
    if check_version_filters control_plane_version node_versions version_filters then
      some
        { name := cluster_name
          control_plane :=
            { version := control_plane_version
              status := cluster.status
              platform_version := cluster.platformVersion.getD "N/A"
              endpoint := cluster.endpoint }
          tags := cluster.tags
          compute :=
            { managed_nodegroups := process_nodegroups env region cluster_name
              nodes := k8s_nodes.map node_info
              fargate_pods := (get_fargate_pods env cluster_name region).map pod_info } }
    else none

/-- One iteration of the region loop (src/eks_versions.py:104-216): the
  clusters to visit are either the single `--cluster` argument or the
  region's listing; a region-level error yields the empty cluster list;
  clusters the filter rejects or whose describe fails are skipped. -/
def process_region (env : AWSEnv) (specific_cluster : Option String)
    (version_filters : VersionFilters) (region : String) : List ClusterInfo :=
  let clusters? :=
    match specific_cluster with
    | some c => some [c]
    | none => env.list_clusters region
  match clusters? with
  | none => []
  | some clusters => clusters.filterMap (process_cluster env version_filters region)

/-- `get_all_eks_info` (src/eks_versions.py:90-218): resolve the region
  list (an error listing regions returns the empty report), then build
  each region's cluster list. -/
def get_all_eks_info (env : AWSEnv) (specific_region specific_cluster : Option String)
    (version_filters : VersionFilters) : List (String × List ClusterInfo) :=
  let regions? :=
    match specific_region with
    | some r => some [r]
    | none => env.describe_regions
  match regions? with
  | none => []
  | some regions =>
    regions.map fun region =>
      (region, process_region env specific_cluster version_filters region)

/-! ## Lemmas -/

theorem listCmp_self (a : List Nat) : listCmp a a = 0 := by
  induction a with
  | nil => rfl
  | cons x xs ih => simp [listCmp, ih]

theorem listCmp_antisymm (a : List Nat) : ∀ b, listCmp a b = -listCmp b a := by
  induction a with
  | nil => intro b; cases b <;> rfl
  | cons x xs ih =>
    intro b
    cases b with
    | nil => rfl
    | cons y ys =>
      simp only [listCmp]
      rcases Nat.lt_trichotomy x y with h | h | h
      · simp [h, Nat.lt_asymm h]
      · subst h
        simp [Nat.lt_irrefl, ih ys]
      · simp [h, Nat.lt_asymm h]

theorem listCmp_trichotomy (a : List Nat) :
    ∀ b, listCmp a b = -1 ∨ listCmp a b = 0 ∨ listCmp a b = 1 := by
  induction a with
  | nil => intro b; cases b with
    | nil => exact Or.inr (Or.inl rfl)
    | cons y ys => exact Or.inl rfl
  | cons x xs ih =>
    intro b
    cases b with
    | nil => exact Or.inr (Or.inr rfl)
    | cons y ys =>
      simp only [listCmp]
      split
      · exact Or.inl rfl
      · split
        · exact Or.inr (Or.inr rfl)
        · exact ih ys

theorem stripTZ_nil : stripTZ [] = [] := rfl

theorem stripTZ_cons (x : Nat) (xs : List Nat) :
    stripTZ (x :: xs) =
      match stripTZ xs with
      | [] => if x = 0 then [] else [x]
      | y :: ys => x :: y :: ys := rfl

/-- A list strips to `[]` exactly when all its components are zero. -/
theorem stripTZ_eq_nil_iff (l : List Nat) :
    stripTZ l = [] ↔ l.all (fun n => n == 0) = true := by
  induction l with
  | nil => simp [stripTZ_nil]
  | cons x xs ih =>
    rw [stripTZ_cons]
    cases h : stripTZ xs with
    | nil =>
      rw [h] at ih
      by_cases hx : x = 0 <;> simp [hx, ← ih]
    | cons y ys =>
      rw [h] at ih
      have hxs : ¬ (xs.all (fun n => n == 0) = true) := by
        intro hall
        cases ih.mpr hall
      constructor
      · intro hfalse
        cases hfalse
      · intro hall
        rw [List.all_cons, Bool.and_eq_true] at hall
        exact absurd hall.2 hxs

/-- The library's stripped-tuple comparison computes exactly the
  component-wise ordinal comparison with zero extension. -/
theorem listCmp_stripTZ_eq_cmpPad : ∀ a b : List Nat,
    listCmp (stripTZ a) (stripTZ b) = cmpPad a b := by
  intro a
  induction a with
  | nil =>
    intro b
    cases b with
    | nil => rfl
    | cons y ys =>
      rw [stripTZ_nil]
      cases h : stripTZ (y :: ys) with
      | nil =>
        have hall := (stripTZ_eq_nil_iff (y :: ys)).mp h
        simp [cmpPad, listCmp, hall]
      | cons w ws =>
        have hall : ¬ ((y :: ys).all (fun n => n == 0) = true) := by
          intro hall
          rw [← stripTZ_eq_nil_iff, h] at hall
          cases hall
        simp [cmpPad, listCmp, hall]
  | cons x xs ih =>
    intro b
    cases b with
    | nil =>
      rw [stripTZ_nil]
      cases h : stripTZ (x :: xs) with
      | nil =>
        have hall := (stripTZ_eq_nil_iff (x :: xs)).mp h
        simp [cmpPad, listCmp, hall]
      | cons w ws =>
        have hall : ¬ ((x :: xs).all (fun n => n == 0) = true) := by
          intro hall
          rw [← stripTZ_eq_nil_iff, h] at hall
          cases hall
        simp [cmpPad, listCmp, hall]
    | cons y ys =>
      have ihy := ih ys
      rw [stripTZ_cons x xs, stripTZ_cons y ys]
      cases h1 : stripTZ xs with
      | nil =>
        cases h2 : stripTZ ys with
        | nil =>
          rw [h1, h2] at ihy
          by_cases hx : x = 0 <;> by_cases hy : y = 0 <;>
            simp [hx, hy, listCmp, cmpPad, Nat.pos_of_ne_zero, ← ihy]
        | cons w ws =>
          rw [h1, h2] at ihy
          by_cases hx : x = 0 <;>
            simp [hx, listCmp, cmpPad, ← ihy]
      | cons w ws =>
        cases h2 : stripTZ ys with
        | nil =>
          rw [h1, h2] at ihy
          by_cases hy : y = 0 <;>
            simp [hy, listCmp, cmpPad, ← ihy]
        | cons u us =>
          rw [h1, h2] at ihy
          simp only [listCmp, cmpPad]
          split
          · rfl
          · split
            · rfl
            · exact ihy


/-- `compare_versions` returns `0` whenever one side fails to parse. -/
theorem compare_versions_of_parse_none (v1 v2 : String)
    (h : version_parse v1 = none ∨ version_parse v2 = none) :
    compare_versions v1 v2 = 0 := by
  rcases h with h | h
  · cases h2 : version_parse v2 <;> simp [compare_versions, h, h2]
  · cases h1 : version_parse v1 <;> simp [compare_versions, h, h1]

/-- Characterization of the admission predicate: `true` exactly when every
  clause that is set passes. -/
theorem check_true_iff (v : String) (nv : List String) (f : VersionFilters) :
    check_version_filters v nv f = true ↔
      ((∀ e, f.exact = some e → e ≠ "" → v = e) ∧
       (∀ m, f.min = some m → m ≠ "" → 0 ≤ compare_versions v m) ∧
       (∀ M, f.max = some M → M ≠ "" → compare_versions v M ≤ 0) ∧
       (f.outdated = true → outdated_check v nv = true)) := by
  constructor
  · intro h
    unfold check_version_filters at h
    split_ifs at h with h0 h1 h2 h3 h4
    -- case: the dict is empty, every clause vacuous
    · rcases f with ⟨fe, fmin, fmax, fo⟩
      simp only [VersionFilters.isEmptyDict, Bool.and_eq_true, Option.isNone_iff_eq_none,
        Bool.not_eq_true'] at h0
      obtain ⟨⟨⟨he, hm⟩, hM⟩, ho⟩ := h0
      subst he; subst hm; subst hM
      refine ⟨?_, ?_, ?_, ?_⟩
      · intro e he
        cases he
      · intro m hm
        cases hm
      · intro M hM
        cases hM
      · intro hfo
        simp_all
    -- case: the outdated clause decided the result
    · refine ⟨?_, ?_, ?_, fun _ => h⟩
      · intro e he hne
        by_contra hv
        exact h1 (by simp [truthy, he, hne, hv])
      · intro m hm hne
        by_contra hlt
        push_neg at hlt
        exact h2 (by simp [truthy, hm, hne, hlt])
      · intro M hM hne
        by_contra hgt
        push_neg at hgt
        exact h3 (by simp [truthy, hM, hne, hgt])
    -- case: no outdated clause, falling through to True
    · refine ⟨?_, ?_, ?_, fun ho => absurd ho h4⟩
      · intro e he hne
        by_contra hv
        exact h1 (by simp [truthy, he, hne, hv])
      · intro m hm hne
        by_contra hlt
        push_neg at hlt
        exact h2 (by simp [truthy, hm, hne, hlt])
      · intro M hM hne
        by_contra hgt
        push_neg at hgt
        exact h3 (by simp [truthy, hM, hne, hgt])
  · rintro ⟨hex, hmin, hmax, hout⟩
    unfold check_version_filters
    split_ifs with h0 h1 h2 h3 h4
    · rfl
    · exfalso
      rcases he : f.exact with _ | e
      · simp [truthy, he] at h1
      · rw [he] at h1
        simp only [truthy, Bool.and_eq_true, bne_iff_ne, Option.getD_some, ne_eq] at h1
        exact h1.2 (hex e he h1.1)
    · exfalso
      rcases hm : f.min with _ | m
      · simp [truthy, hm] at h2
      · rw [hm] at h2
        simp only [truthy, Bool.and_eq_true, bne_iff_ne, Option.getD_some, ne_eq,
          decide_eq_true_eq] at h2
        exact absurd (hmin m hm h2.1) (not_le.mpr h2.2)
    · exfalso
      rcases hM : f.max with _ | M
      · simp [truthy, hM] at h3
      · rw [hM] at h3
        simp only [truthy, Bool.and_eq_true, bne_iff_ne, Option.getD_some, ne_eq,
          decide_eq_true_eq] at h3
        exact absurd (hmax M hM h3.1) (not_le.mpr h3.2)
    · exact hout h4
    · rfl

/-- The skew detector fires exactly on a heterogeneous set or a singleton
  comparing unequal to the control plane. -/
theorem outdated_check_iff (v : String) (nv : List String) :
    outdated_check v nv = true ↔
      (1 < nv.length ∨ ∃ s, nv = [s] ∧ compare_versions s v ≠ 0) := by
  unfold outdated_check
  rcases nv with _ | ⟨s, rest⟩
  · simp
  · rcases rest with _ | ⟨t, rest⟩
    · simp
    · simp [Nat.succ_lt_succ]

/-- A set, non-empty `exact` key rejects any textually different
  control-plane version. -/
theorem check_exact_mismatch (v : String) (nv : List String)
    (f : VersionFilters) (e : String)
    (he : f.exact = some e) (hne : e ≠ "") (hv : v ≠ e) :
    check_version_filters v nv f = false := by
  cases hc : check_version_filters v nv f
  · rfl
  · exact absurd (((check_true_iff v nv f).mp hc).1 e he hne) hv

/-- A record returned by `process_cluster` passed the filter against the
  kubelet-version set of its own emitted node list. -/
theorem process_cluster_some_check (env : AWSEnv) (vf : VersionFilters)
    (region name : String) (ci : ClusterInfo)
    (h : process_cluster env vf region name = some ci) :
    check_version_filters ci.control_plane.version
      ((ci.compute.nodes.map (fun n => n.k8s_version)).dedup) vf = true := by
  unfold process_cluster at h
  rcases hd : env.describe_cluster region name with _ | cluster
  · rw [hd] at h
    cases h
  · rw [hd] at h
    simp only at h
    by_cases hchk : check_version_filters cluster.version
        ((get_cluster_nodes env name region).map (fun node => node.kubeletVersion)).dedup vf = true
    · rw [if_pos hchk] at h
      injection h with h'
      subst h'
      have hmap : ((get_cluster_nodes env name region).map node_info).map (fun n => n.k8s_version)
          = (get_cluster_nodes env name region).map (fun node => node.kubeletVersion) := by
        rw [List.map_map]
        rfl
      simpa [hmap] using hchk
    · rw [if_neg hchk] at h
      cases h

/-- The surviving nodegroup names after one describe call fails. -/
theorem filterMap_nodegroups_names (env : AWSEnv) (region cluster_name b : String)
    (hb : env.describe_nodegroup region cluster_name b = none) :
    ∀ ngs : List String,
      (∀ n ∈ ngs, n ≠ b → (env.describe_nodegroup region cluster_name n).isSome) →
      ((ngs.filterMap fun ng_name =>
          (env.describe_nodegroup region cluster_name ng_name).map (nodegroup_info ng_name)).map
            (fun g => g.name))
        = ngs.filter (fun n => n != b) := by
  intro ngs
  induction ngs with
  | nil => intro _; rfl
  | cons n rest ih =>
    intro hok
    have ihrest := ih (fun x hx hxb => hok x (List.mem_cons_of_mem _ hx) hxb)
    by_cases hnb : n = b
    · subst hnb
      simp [List.filterMap_cons, hb, List.filter_cons, ihrest]
    · obtain ⟨ng, hng⟩ := Option.isSome_iff_exists.mp (hok n (List.mem_cons_self _ _) hnb)
      simp [List.filterMap_cons, hng, List.filter_cons, hnb, nodegroup_info, ihrest]

/-- A sample environment: one region, one cluster on control-plane `1.27`
  with a single `1.26` node, and two managed nodegroups of which
  `bad-ng`'s describe call fails. -/
def demoEnv : AWSEnv :=
  { describe_regions := some ["us-west-2"]
    list_clusters := fun _ => some ["alpha"]
    describe_cluster := fun _ _ =>
      some { version := "1.27", status := "ACTIVE", platformVersion := some "eks.5",
             endpoint := "https://example", tags := [] }
    kubectl_get_nodes := fun _ _ =>
      some [{ name := "node-1", conditionTypes := ["Ready"], labels := [],
              kubeletVersion := "1.26", capacity := [] }]
    kubectl_get_pods := fun _ _ => some []
    list_nodegroups := fun _ _ => some ["good-ng", "bad-ng"]
    describe_nodegroup := fun _ _ ng_name =>
      if ng_name = "bad-ng" then none
      else some { status := "ACTIVE", instanceTypes := ["m5.large"],
                  amiVersion := some "1.26.1", version := some "1.26",
                  desiredSize := 2, maxSize := 3, minSize := 1, tags := [] } }

/-- The record `get_all_eks_info demoEnv` emits for cluster `alpha` under
  the `outdated` filter. -/
def demoCluster : ClusterInfo :=
  { name := "alpha"
    control_plane := { version := "1.27", status := "ACTIVE",
                       platform_version := "eks.5", endpoint := "https://example" }
    tags := []
    compute :=
      { managed_nodegroups :=
          [{ name := "good-ng", status := "ACTIVE", instance_types := ["m5.large"],
             ami_version := "1.26.1", k8s_version := "1.26",
             desired := 2, max := 3, min := 1, tags := [] }]
        nodes := [{ name := "node-1", status := "Ready", instance_type := "N/A",
                    k8s_version := "1.26", capacity := [], labels := [] }]
        fargate_pods := [] } }

/-! ## The claims -/

/-- Claim C1, corrected.  As stated — for *every* filter with `outdated`
  set — the claim is false: the `exact`/`min`/`max` clauses are conjoined
  and can reject first (see the counterexample).  Amended: for every
  filter with `outdated` set whose `exact`, `min` and `max` clauses (when
  set) pass for the control-plane version, admission is exactly the skew
  verdict: more than one distinct node version admits; a single node
  version comparing unequal to the control plane admits; otherwise
  (empty set, or a matching singleton) rejects. -/
theorem claim_c1_outdated_skew (v : String) (nv : List String) (f : VersionFilters)
    (_hnd : nv.Nodup) (ho : f.outdated = true)
    (hex : ∀ e, f.exact = some e → e ≠ "" → v = e)
    (hmin : ∀ m, f.min = some m → m ≠ "" → 0 ≤ compare_versions v m)
    (hmax : ∀ M, f.max = some M → M ≠ "" → compare_versions v M ≤ 0) :
    check_version_filters v nv f = true ↔
      (1 < nv.length ∨ ∃ s, nv = [s] ∧ compare_versions s v ≠ 0) := by
  rw [check_true_iff, ← outdated_check_iff v nv]
  constructor
  · intro h
    exact h.2.2.2 ho
  · intro h
    exact ⟨hex, hmin, hmax, fun _ => h⟩

/-- Claim C1, counterexample to the claim as stated: the filter
  `{min: "2.0", outdated: true}` has `outdated` set and the node set
  `{"1.26", "1.25"}` has two distinct entries, so the claim demands
  admission, but the `min` clause rejects `1.27` first. -/
theorem claim_c1_counterexample :
    check_version_filters "1.27" ["1.26", "1.25"]
      ⟨none, some "2.0", none, true⟩ = false := by decide

/-- Witness for the amended claim C1 at `v = "1.27"`, `nv = {"1.26"}`,
  filter `{outdated: true}`. -/
theorem claim_c1_witness :
    check_version_filters "1.27" ["1.26"] ⟨none, none, none, true⟩ = true :=
  (claim_c1_outdated_skew "1.27" ["1.26"] ⟨none, none, none, true⟩ (by decide) rfl
      (fun _ he _ => nomatch he) (fun _ hm _ => nomatch hm) (fun _ hM _ => nomatch hM)).mpr
    (Or.inr ⟨"1.26", rfl, by decide⟩)

/-- Claim C2: whenever either string fails to parse, `compare_versions`
  returns `0`; parse failure is absorbed, never signalled. -/
theorem claim_c2_invalid_compare (v1 v2 : String)
    (h : version_parse v1 = none ∨ version_parse v2 = none) :
    compare_versions v1 v2 = 0 :=
  compare_versions_of_parse_none v1 v2 h

/-- Witness for claim C2 at the spec's example `("invalid", "1.27")`. -/
theorem claim_c2_witness :
    version_parse "invalid" = none ∧ compare_versions "invalid" "1.27" = 0 :=
  ⟨rfl, claim_c2_invalid_compare "invalid" "1.27" (Or.inl rfl)⟩

/-- Claim C3: a set `min` clause rejects when the control plane compares
  below it, a set `max` clause rejects when it compares above it, and
  admission holds exactly when every set clause passes (logical AND). -/
theorem claim_c3_min_max_and (v : String) (nv : List String) (f : VersionFilters) :
    (∀ m, f.min = some m → m ≠ "" → compare_versions v m < 0 →
        check_version_filters v nv f = false) ∧
    (∀ M, f.max = some M → M ≠ "" → 0 < compare_versions v M →
        check_version_filters v nv f = false) ∧
    (check_version_filters v nv f = true ↔
      ((∀ e, f.exact = some e → e ≠ "" → v = e) ∧
       (∀ m, f.min = some m → m ≠ "" → 0 ≤ compare_versions v m) ∧
       (∀ M, f.max = some M → M ≠ "" → compare_versions v M ≤ 0) ∧
       (f.outdated = true → outdated_check v nv = true))) := by
  refine ⟨?_, ?_, check_true_iff v nv f⟩
  · intro m hm hne hlt
    cases hc : check_version_filters v nv f
    · rfl
    · have := ((check_true_iff v nv f).mp hc).2.1 m hm hne
      omega
  · intro M hM hne hgt
    cases hc : check_version_filters v nv f
    · rfl
    · have := ((check_true_iff v nv f).mp hc).2.2.1 M hM hne
      omega

/-- Witness for claim C3: `1.26` fails a `min: 1.27` filter and `1.28`
  fails a `max: 1.27` filter. -/
theorem claim_c3_witness :
    check_version_filters "1.26" [] ⟨none, some "1.27", none, false⟩ = false ∧
    check_version_filters "1.28" [] ⟨none, none, some "1.27", false⟩ = false :=
  ⟨(claim_c3_min_max_and "1.26" [] ⟨none, some "1.27", none, false⟩).1 "1.27" rfl
      (by decide) (by decide),
   (claim_c3_min_max_and "1.28" [] ⟨none, none, some "1.27", false⟩).2.1 "1.27" rfl
      (by decide) (by decide)⟩

/-- Claim C4: a set `exact` clause rejects any control-plane version that
  differs from it; the comparison the code performs is textual string
  inequality (`!=` on the strings, not `compare_versions`). -/
theorem claim_c4_exact_reject (v : String) (nv : List String) (f : VersionFilters)
    (e : String) (he : f.exact = some e) (hne : e ≠ "") (hv : v ≠ e) :
    check_version_filters v nv f = false :=
  check_exact_mismatch v nv f e he hne hv

/-- Witness for claim C4 at the spec's example
  `admit("1.26", {}, {exact:"1.27"}) == false`. -/
theorem claim_c4_witness :
    check_version_filters "1.26" [] ⟨some "1.27", none, none, false⟩ = false :=
  claim_c4_exact_reject "1.26" [] ⟨some "1.27", none, none, false⟩ "1.27" rfl
    (by decide) (by decide)

/-- Claim C5: every cluster record in the report passed the version filter
  against its own control-plane version and the kubelet-version set of the
  nodes it records. -/
theorem claim_c5_report_invariant (env : AWSEnv) (sr sc : Option String)
    (vf : VersionFilters) (region : String) (cls : List ClusterInfo) (ci : ClusterInfo)
    (hreg : (region, cls) ∈ get_all_eks_info env sr sc vf)
    (hci : ci ∈ cls) :
    check_version_filters ci.control_plane.version
      ((ci.compute.nodes.map (fun n => n.k8s_version)).dedup) vf = true := by
  unfold get_all_eks_info at hreg
  rcases hr : (match sr with | some r => some [r] | none => env.describe_regions)
      with _ | regions
  · rw [hr] at hreg
    cases hreg
  · rw [hr] at hreg
    simp only [List.mem_map] at hreg
    obtain ⟨r0, _, heq⟩ := hreg
    rw [Prod.mk.injEq] at heq
    obtain ⟨_, hcls⟩ := heq
    subst hcls
    unfold process_region at hci
    rcases hc2 : (match sc with | some c => some [c] | none => env.list_clusters r0)
        with _ | clusters
    · rw [hc2] at hci
      cases hci
    · rw [hc2] at hci
      simp only [List.mem_filterMap] at hci
      obtain ⟨name, _, hsome⟩ := hci
      exact process_cluster_some_check env vf r0 name ci hsome

/-- Witness for claim C5 on `demoEnv` under the `outdated` filter. -/
theorem claim_c5_witness :
    check_version_filters demoCluster.control_plane.version
      ((demoCluster.compute.nodes.map (fun n => n.k8s_version)).dedup)
      ⟨none, none, none, true⟩ = true :=
  claim_c5_report_invariant demoEnv none none ⟨none, none, none, true⟩
    "us-west-2" [demoCluster] demoCluster (by decide) (by decide)

/-- Claim C6: when one nodegroup's describe call fails and the others
  succeed, the emitted `managed_nodegroups` list carries exactly the other
  nodegroups, in listing order; and whether the cluster record is built at
  all depends only on the cluster describe call and the version filter,
  not on any nodegroup failure. -/
theorem claim_c6_nodegroup_isolation (env : AWSEnv) (region cluster_name : String)
    (ngs : List String) (b : String)
    (hls : env.list_nodegroups region cluster_name = some ngs)
    (hb : env.describe_nodegroup region cluster_name b = none)
    (hok : ∀ n ∈ ngs, n ≠ b → (env.describe_nodegroup region cluster_name n).isSome) :
    ((process_nodegroups env region cluster_name).map (fun g => g.name)
        = ngs.filter (fun n => n != b)) ∧
    (∀ vf cl, env.describe_cluster region cluster_name = some cl →
      (process_cluster env vf region cluster_name).isSome =
        check_version_filters cl.version
          ((get_cluster_nodes env cluster_name region).map
            (fun node => node.kubeletVersion)).dedup vf) := by
  constructor
  · unfold process_nodegroups
    rw [hls]
    exact filterMap_nodegroups_names env region cluster_name b hb ngs hok
  · intro vf cl hcl
    unfold process_cluster
    rw [hcl]
    cases hchk : check_version_filters cl.version
        ((get_cluster_nodes env cluster_name region).map
          (fun node => node.kubeletVersion)).dedup vf <;>
      simp [hchk]

/-- Witness for claim C6 on `demoEnv`: `bad-ng` fails, `good-ng` survives. -/
theorem claim_c6_witness :
    ((process_nodegroups demoEnv "us-west-2" "alpha").map (fun g => g.name)
        = (["good-ng", "bad-ng"]).filter (fun n => n != "bad-ng")) ∧
    (∀ vf cl, demoEnv.describe_cluster "us-west-2" "alpha" = some cl →
      (process_cluster demoEnv vf "us-west-2" "alpha").isSome =
        check_version_filters cl.version
          ((get_cluster_nodes demoEnv "alpha" "us-west-2").map
            (fun node => node.kubeletVersion)).dedup vf) :=
  claim_c6_nodegroup_isolation demoEnv "us-west-2" "alpha" ["good-ng", "bad-ng"]
    "bad-ng" rfl rfl (by decide)

/-- Claim C7: on well-formed dotted versions, `compare_versions` is the
  component-wise ordinal comparison (missing components reading as zero)
  and yields only `-1`, `0` or `1`. -/
theorem claim_c7_wellformed_order (v1 v2 : String) (r1 r2 : List Nat)
    (h1 : version_parse v1 = some r1) (h2 : version_parse v2 = some r2) :
    compare_versions v1 v2 = cmpPad r1 r2 ∧
      (cmpPad r1 r2 = -1 ∨ cmpPad r1 r2 = 0 ∨ cmpPad r1 r2 = 1) := by
  have hc : compare_versions v1 v2 = releaseCmp r1 r2 := by
    simp [compare_versions, h1, h2]
  constructor
  · rw [hc, releaseCmp, listCmp_stripTZ_eq_cmpPad]
  · rw [← listCmp_stripTZ_eq_cmpPad]
    exact listCmp_trichotomy _ _

/-- Witness for claim C7 at the spec's examples: `1.27.1 > 1.27.0`,
  `1.27.0 < 1.27.1`, `1.26 < 1.27`, `1.26 == 1.26`. -/
theorem claim_c7_witness :
    compare_versions "1.27.1" "1.27.0" = 1 ∧
    compare_versions "1.27.0" "1.27.1" = -1 ∧
    compare_versions "1.26" "1.27" = -1 ∧
    compare_versions "1.26" "1.26" = 0 := by
  refine ⟨?_, ?_, ?_, ?_⟩
  · rw [(claim_c7_wellformed_order "1.27.1" "1.27.0" [1, 27, 1] [1, 27, 0] rfl rfl).1]
    rfl
  · rw [(claim_c7_wellformed_order "1.27.0" "1.27.1" [1, 27, 0] [1, 27, 1] rfl rfl).1]
    rfl
  · rw [(claim_c7_wellformed_order "1.26" "1.27" [1, 26] [1, 27] rfl rfl).1]
    rfl
  · rw [(claim_c7_wellformed_order "1.26" "1.26" [1, 26] [1, 26] rfl rfl).1]
    rfl

/-- Claim C8: on well-formed versions `compare` is antisymmetric,
  `compare(a,b) = -compare(b,a)`, and reflexively zero. -/
theorem claim_c8_antisymm (v1 v2 : String) (r1 r2 : List Nat)
    (h1 : version_parse v1 = some r1) (h2 : version_parse v2 = some r2) :
    compare_versions v1 v2 = -compare_versions v2 v1 ∧ compare_versions v1 v1 = 0 := by
  constructor
  · simp only [compare_versions, h1, h2, releaseCmp]
    exact listCmp_antisymm _ _
  · simp only [compare_versions, h1, releaseCmp]
    exact listCmp_self _

/-- Witness for claim C8 at `("1.26", "1.27")`. -/
theorem claim_c8_witness :
    compare_versions "1.26" "1.27" = -compare_versions "1.27" "1.26" ∧
    compare_versions "1.26" "1.26" = 0 :=
  claim_c8_antisymm "1.26" "1.27" [1, 26] [1, 27] rfl rfl

/-- Claim C9: `"1.27"` and `"1.27.0"` are distinct strings comparing equal;
  for every node set, a `min` or `max` filter set to `"1.27.0"` admits
  control plane `"1.27"` (semantic comparison) while an `exact` filter set
  to `"1.27.0"` rejects it (textual comparison). -/
theorem claim_c9_semantic_vs_textual (S : List String) :
    "1.27" ≠ "1.27.0" ∧
    compare_versions "1.27" "1.27.0" = 0 ∧
    check_version_filters "1.27" S ⟨none, some "1.27.0", none, false⟩ = true ∧
    check_version_filters "1.27" S ⟨none, none, some "1.27.0", false⟩ = true ∧
    check_version_filters "1.27" S ⟨some "1.27.0", none, none, false⟩ = false := by
  refine ⟨by decide, by decide, ?_, ?_, ?_⟩
  · rw [check_true_iff]
    refine ⟨?_, ?_, ?_, ?_⟩
    · intro e he
      cases he
    · intro m hm _
      cases hm
      decide
    · intro M hM
      cases hM
    · intro ho
      cases ho
  · rw [check_true_iff]
    refine ⟨?_, ?_, ?_, ?_⟩
    · intro e he
      cases he
    · intro m hm
      cases hm
    · intro M hM _
      cases hM
      decide
    · intro ho
      cases ho
  · exact check_exact_mismatch "1.27" S _ "1.27.0" rfl (by decide) (by decide)

/-- Claim C10: with `outdated` set and a singleton node set whose sole
  entry fails to parse, the cluster is never admitted: the parse-failure
  tolerance makes the node compare equal to any control plane, so no skew
  is detected, and the other clauses can only reject. -/
theorem claim_c10_unparseable_node (v s : String) (f : VersionFilters)
    (ho : f.outdated = true) (hs : version_parse s = none) :
    check_version_filters v [s] f = false := by
  cases hc : check_version_filters v [s] f
  · rfl
  · exfalso
    have hsk := ((check_true_iff v [s] f).mp hc).2.2.2 ho
    rw [outdated_check_iff] at hsk
    rcases hsk with h | ⟨t, ht, hne⟩
    · simp at h
    · injection ht with ht' _
      subst ht'
      exact hne (compare_versions_of_parse_none s v (Or.inl hs))

/-- Witness for claim C10 at the kubelet-style string
  `"v1.27.1-eks-abc123"`. -/
theorem claim_c10_witness :
    version_parse "v1.27.1-eks-abc123" = none ∧
    check_version_filters "1.27" ["v1.27.1-eks-abc123"] ⟨none, none, none, true⟩ = false :=
  ⟨rfl, claim_c10_unparseable_node "1.27" "v1.27.1-eks-abc123" ⟨none, none, none, true⟩
    rfl rfl⟩

end EksVersions
